import Mathlib

/-!
Verification development for the Starlink-Controller repository (src/server.py).

The Python code is shallowly embedded: Python values that flow through the
status payloads are modelled by the inductive type `PyVal` (numbers as exact
rationals), Python dict lookups by association-list lookup, the truthiness
based `or` chains by `pyOr`, and each function of the source by a Lean
definition with the same name where possible.  Stateful code (the background
scheduler loop, the log store) is modelled by explicit state passing.
-/

/-- A Python value as it appears in the telemetry payloads: None, booleans,
numbers (floats modelled as exact rationals), strings, dicts (association
lists) and lists. -/
inductive PyVal where
  | none : PyVal
  | bool : Bool → PyVal
  | num : ℚ → PyVal
  | str : String → PyVal
  | dict : List (String × PyVal) → PyVal
  | list : List PyVal → PyVal

/-- Python truthiness: None, False, 0, the empty string and empty containers
are falsy; everything else is truthy. -/
def pyTruthy : PyVal → Bool
  | PyVal.none => false
  | PyVal.bool b => b
  | PyVal.num q => q != 0
  | PyVal.str s => s != ""
  | PyVal.dict l => !l.isEmpty
  | PyVal.list l => !l.isEmpty

/-- Python `a or b`: the left operand if it is truthy, otherwise the right
operand. -/
def pyOr (a b : PyVal) : PyVal :=
  if pyTruthy a then a else b

/-- Embedding of the helper `g(d, *keys)` from server.py (lines 60-66 and
177-183): walk a key path through nested dicts, returning None as soon as a
level is not a dict or lacks the key.  `d.get(k)` is `gpathV d [k]`. -/
def gpathV (d : PyVal) : List String → PyVal
  | [] => d
  | k :: rest =>
    match d with
    | PyVal.dict fields =>
      match fields.lookup k with
      | some v => gpathV v rest
      | Option.none => PyVal.none
    | _ => PyVal.none

/-- Key-path traversal that distinguishes a missing path (`none`) from a
present value (`some v`), used to state the spec-side resolution rule. -/
def gpathOpt (d : PyVal) : List String → Option PyVal
  | [] => some d
  | k :: rest =>
    match d with
    | PyVal.dict fields =>
      match fields.lookup k with
      | some v => gpathOpt v rest
      | Option.none => Option.none
    | _ => Option.none

/-- Python `str(v)` restricted to what the classifier needs.  String values
render as themselves (so the empty string stays empty, as in Python); the
decimal rendering of numbers and the rendering of containers are abstracted,
but like Python they are always nonempty, which is all that the classifier
observes about them. -/
def pyStr : PyVal → String
  | PyVal.none => "None"
  | PyVal.bool true => "True"
  | PyVal.bool false => "False"
  | PyVal.num q => if q.den = 1 then toString q.num else toString q.num ++ "/" ++ toString q.den
  | PyVal.str s => s
  | PyVal.dict _ => "dict"
  | PyVal.list _ => "list"

/-- Digit list to natural number. -/
def digitsVal (cs : List Char) : ℕ :=
  cs.foldl (fun a c => a * 10 + (c.toNat - 48)) 0

/-- Core of decimal parsing: an optional integer part, an optional dot, an
optional fractional part, with at least one digit overall. -/
def parseDecCore (cs : List Char) : Option ℚ :=
  let p := cs.span (fun c => c ≠ '.')
  match p.2 with
  | [] =>
    if p.1 ≠ [] ∧ p.1.all Char.isDigit then some ((digitsVal p.1 : ℕ) : ℚ)
    else Option.none
  | _ :: fp =>
    if (p.1 ≠ [] ∨ fp ≠ []) ∧ p.1.all Char.isDigit ∧ fp.all Char.isDigit ∧
        fp.all (fun c => c ≠ '.') then
      some (mkRat (digitsVal (p.1 ++ fp) : ℕ) (10 ^ fp.length))
    else Option.none

/-- Python `float(s)` on a string, for plain decimals with an optional sign
(exponents, infinities and surrounding whitespace are not modelled; no claim
involves them). -/
def parseDec (s : String) : Option ℚ :=
  match s.toList with
  | [] => Option.none
  | '-' :: rest => (parseDecCore rest).map (fun q => -q)
  | '+' :: rest => parseDecCore rest
  | cs => parseDecCore cs

/-- Python `float(v)` wrapped in the source's `try/except` (a failure is
swallowed and leaves the value absent): booleans coerce to 0/1, numbers pass
through, strings are parsed, and None/dict/list fail. -/
def pyFloat : PyVal → Option ℚ
  | PyVal.none => Option.none
  | PyVal.bool b => some (if b then 1 else 0)
  | PyVal.num q => some q
  | PyVal.str s => parseDec s
  | PyVal.dict _ => Option.none
  | PyVal.list _ => Option.none

/-- Fixed-point decimal rendering used for the f-string reason messages
(`{v:.2f}` and `{v:.3f}`).  The rounded count of `10 ^ dp`-ths of `|q|` is
`⌊|q| * 10 ^ dp + 1/2⌋`, computed on the numerator and denominator as the
natural-number division `(2 * |q.num| * 10 ^ dp + q.den) / (2 * q.den)`.
Rounding of exact halves is half-up here while Python rounds the underlying
binary float; no claim exercises a tie. -/
def fmtFixed (q : ℚ) (dp : ℕ) : String :=
  let scaledNum : ℕ := q.num.natAbs * 10 ^ dp
  let n : ℕ := (2 * scaledNum + q.den) / (2 * q.den)
  let ip := n / 10 ^ dp
  let fp := n % 10 ^ dp
  let fpStr := toString fp
  let pad := String.mk (List.replicate (dp - fpStr.length) '0')
  (if q.num < 0 then "-" else "") ++ toString ip ++
    (if dp = 0 then "" else "." ++ pad ++ fpStr)

/-- The dish states the classifier accepts as aligned (server.py line 78). -/
def OK_STATES : List String := ["ONLINE", "CONNECTED"]

/-- The known bad dish states (server.py lines 79-83). -/
def BAD_STATES : List String :=
  ["STOWED", "STOWING", "UNSTOWING", "BOOTING", "STARTING", "CALIBRATING",
   "SEARCHING", "NO_SATS", "IDLE"]

/-- Dish-state resolution (server.py lines 71-75):
`status_raw.get("dish_state") or status_raw.get("state") or
 g(status_raw, "status", "dish_state")`. -/
def resolveDishState (d : PyVal) : PyVal :=
  pyOr (gpathV d ["dish_state"])
    (pyOr (gpathV d ["state"]) (gpathV d ["status", "dish_state"]))

/-- Python `.upper()`, modelled per character (ASCII case folding, which
covers every state name the classifier compares against). -/
def strUpper (s : String) : String :=
  String.mk (s.toList.map Char.toUpper)

/-- `str(dish_state).upper() if dish_state is not None else ""`
(server.py line 76). -/
def dishStateStr (d : PyVal) : String :=
  match resolveDishState d with
  | PyVal.none => ""
  | v => strUpper (pyStr v)

/-- Boresight-error resolution (server.py lines 94-99). -/
def resolveBoresight (d : PyVal) : PyVal :=
  pyOr (gpathV d ["boresight_error_deg"])
    (pyOr (gpathV d ["alignment_stats", "boresight_error_deg"])
      (pyOr (gpathV d ["pointing_stats", "boresight_error_deg"])
        (gpathV d ["pointing", "boresight_error_deg"])))

/-- `boresight_val`: the resolved boresight error coerced with `float`, or
absent when the resolution gave None or the coercion failed
(server.py lines 100-103). -/
def boresightVal (d : PyVal) : Option ℚ :=
  pyFloat (resolveBoresight d)

/-- Currently-obstructed resolution (server.py lines 110-113). -/
def resolveObstructed (d : PyVal) : PyVal :=
  pyOr (gpathV d ["currently_obstructed"])
    (gpathV d ["obstruction_stats", "currently_obstructed"])

/-- Python `x is True`. -/
def isPyTrue : PyVal → Bool
  | PyVal.bool true => true
  | _ => false

/-- Obstruction-fraction resolution (server.py lines 118-122, identical list
of alternatives in the summary at lines 191-195). -/
def resolveObstruction (d : PyVal) : PyVal :=
  pyOr (gpathV d ["obstruction_fraction"])
    (pyOr (gpathV d ["obstruction_stats", "fraction_obstructed"])
      (gpathV d ["obstruction_stats", "obstruction_fraction"]))

/-- `obstruction_val` (server.py lines 123-126). -/
def obstructionVal (d : PyVal) : Option ℚ :=
  pyFloat (resolveObstruction d)

/-- The mutable `(verdict, reasons)` pair threaded through the classifier
rules. -/
structure ClassifierState where
  verdict : String
  reasons : List String

/-- Rule 1 of check_alignment (server.py lines 85-92): classify the resolved
dish state. -/
def rule1 (d : PyVal) : ClassifierState :=
  let s := dishStateStr d
  if s ∈ OK_STATES then ⟨"ALIGNED", []⟩
  else if s ∈ BAD_STATES ∨ s ≠ "" then ⟨"NOT_OK", ["state=" ++ s]⟩
  else ⟨"UNKNOWN", ["state=unknown"]⟩

/-- Rule 2 (server.py lines 100-108): boresight error above 2.5 degrees. -/
def rule2 (d : PyVal) (st : ClassifierState) : ClassifierState :=
  match boresightVal d with
  | some v =>
    if v > Rat.divInt 5 2 then
      ⟨"NOT_OK", st.reasons ++ ["boresight>2.5deg (" ++ fmtFixed v 2 ++ "°)"]⟩
    else st
  | Option.none => st

/-- Rule 3 (server.py lines 110-116): `currently_obstructed is True`. -/
def rule3 (d : PyVal) (st : ClassifierState) : ClassifierState :=
  if isPyTrue (resolveObstructed d) then
    ⟨"NOT_OK", st.reasons ++ ["currently_obstructed=true"]⟩
  else st

/-- Rule 4 (server.py lines 118-134): obstruction fraction thresholds. -/
def rule4 (d : PyVal) (st : ClassifierState) : ClassifierState :=
  match obstructionVal d with
  | some v =>
    if v > Rat.divInt 1 10 then
      ⟨"NOT_OK", st.reasons ++ ["obstruction=HIGH (" ++ fmtFixed v 3 ++ ")"]⟩
    else if v > Rat.divInt 1 50 then
      ⟨"NOT_OK", st.reasons ++ ["obstruction=MED (" ++ fmtFixed v 3 ++ ")"]⟩
    else st
  | Option.none => st

/-- The result dict of check_alignment (server.py lines 139-148). -/
structure AlignmentVerdict where
  aligned : Bool
  verdict : String
  explain : String
  dish_state : PyVal
  boresight_error_deg : Option ℚ
  obstruction_fraction : Option ℚ
  currently_obstructed : PyVal
  reasons : List String

/-- Embedding of `check_alignment` (server.py lines 59-148): the four rules
run in order on the shared `(verdict, reasons)` state, then the result dict
is assembled (lines 136-148). -/
def check_alignment (d : PyVal) : AlignmentVerdict :=
  let st := rule4 d (rule3 d (rule2 d (rule1 d)))
  let aligned : Bool := st.verdict == "ALIGNED"
  { aligned := aligned
    verdict :=
      if aligned then "ALIGNED"
      else if st.verdict ≠ "UNKNOWN" then "NOT_OK" else "UNKNOWN"
    explain :=
      if aligned then "OK"
      else if st.reasons.isEmpty then "Not okay"
      else String.intercalate "; " st.reasons
    dish_state := resolveDishState d
    boresight_error_deg := boresightVal d
    obstruction_fraction := obstructionVal d
    currently_obstructed := resolveObstructed d
    reasons := st.reasons }

/-- The summary dict built by do_status (server.py lines 185-199). -/
structure NormalizedSummary where
  dish_state : PyVal
  pop_ping_latency_ms : PyVal
  pop_ping_drop_rate : PyVal
  downlink_throughput_bps : PyVal
  uplink_throughput_bps : PyVal
  obstruction_fraction : PyVal
  seconds_since_last_1s_outage : PyVal
  seconds_since_last_2s_outage : PyVal
  seconds_since_last_5s_outage : PyVal

/-- Embedding of the summary construction inside do_status
(server.py lines 185-199); each field is the or-chain from the source. -/
def mkSummary (raw : PyVal) : NormalizedSummary :=
  { dish_state :=
      pyOr (gpathV raw ["dish_state"])
        (pyOr (gpathV raw ["state"]) (gpathV raw ["status", "dish_state"]))
    pop_ping_latency_ms :=
      pyOr (gpathV raw ["pop_ping_latency_ms"]) (gpathV raw ["ping_latency_ms"])
    pop_ping_drop_rate := gpathV raw ["pop_ping_drop_rate"]
    downlink_throughput_bps :=
      pyOr (gpathV raw ["downlink_throughput_bps"])
        (gpathV raw ["download_throughput_bps"])
    uplink_throughput_bps :=
      pyOr (gpathV raw ["uplink_throughput_bps"])
        (gpathV raw ["upload_throughput_bps"])
    obstruction_fraction :=
      pyOr (gpathV raw ["obstruction_fraction"])
        (pyOr (gpathV raw ["obstruction_stats", "fraction_obstructed"])
          (gpathV raw ["obstruction_stats", "obstruction_fraction"]))
    seconds_since_last_1s_outage := gpathV raw ["seconds_since_last_1s_outage"]
    seconds_since_last_2s_outage := gpathV raw ["seconds_since_last_2s_outage"]
    seconds_since_last_5s_outage := gpathV raw ["seconds_since_last_5s_outage"] }

/-- The ordered key-path alternatives for the dish state. -/
def dishStatePaths : List (List String) :=
  [["dish_state"], ["state"], ["status", "dish_state"]]

/-- The ordered key-path alternatives for the boresight error. -/
def boresightPaths : List (List String) :=
  [["boresight_error_deg"], ["alignment_stats", "boresight_error_deg"],
   ["pointing_stats", "boresight_error_deg"], ["pointing", "boresight_error_deg"]]

/-- The ordered key-path alternatives for the obstruction fraction. -/
def obstructionFractionPaths : List (List String) :=
  [["obstruction_fraction"], ["obstruction_stats", "fraction_obstructed"],
   ["obstruction_stats", "obstruction_fraction"]]

/-- What the or-chains of the source actually implement: take the first
alternative whose value is truthy; when no alternative is truthy the value of
the last alternative is kept (which is what a Python or-chain evaluates to). -/
def resolveChain (d : PyVal) : List (List String) → PyVal
  | [] => PyVal.none
  | [p] => gpathV d p
  | p :: rest => if pyTruthy (gpathV d p) then gpathV d p else resolveChain d rest

/-- The resolution rule exactly as the claim states it: take the first
key-path that is present in the payload, a falsy value (0, False, the empty
string) counting as present; a stored None counts as absent. -/
def resolveFirstPresent (d : PyVal) : List (List String) → Option PyVal
  | [] => Option.none
  | p :: rest =>
    match gpathOpt d p with
    | some PyVal.none => resolveFirstPresent d rest
    | some v => some v
    | Option.none => resolveFirstPresent d rest

/-- The reason entry contributed by rule 1, when it contributes one. -/
def reasons1 (d : PyVal) : List String :=
  let s := dishStateStr d
  if s ∈ OK_STATES then []
  else if s ∈ BAD_STATES ∨ s ≠ "" then ["state=" ++ s]
  else ["state=unknown"]

/-- The reason entry contributed by rule 2, when it contributes one. -/
def reasons2 (d : PyVal) : List String :=
  match boresightVal d with
  | some v => if v > Rat.divInt 5 2 then ["boresight>2.5deg (" ++ fmtFixed v 2 ++ "°)"] else []
  | Option.none => []

/-- The reason entry contributed by rule 3, when it contributes one. -/
def reasons3 (d : PyVal) : List String :=
  if isPyTrue (resolveObstructed d) then ["currently_obstructed=true"] else []

/-- The reason entry contributed by rule 4, when it contributes one. -/
def reasons4 (d : PyVal) : List String :=
  match obstructionVal d with
  | some v =>
    if v > Rat.divInt 1 10 then ["obstruction=HIGH (" ++ fmtFixed v 3 ++ ")"]
    else if v > Rat.divInt 1 50 then ["obstruction=MED (" ++ fmtFixed v 3 ++ ")"]
    else []
  | Option.none => []

/-- `MAX_KEEP` from log_obstruction_fraction_5min (server.py line 277). -/
def MAX_KEEP : ℕ := 2016

/-- Embedding of the append-then-truncate step of
log_obstruction_fraction_5min (server.py lines 274-279): `data.append(entry)`
followed by `data = data[-MAX_KEEP:]` when the bound is exceeded. -/
def appendBounded {α : Type} (data : List α) (e : α) : List α :=
  let d := data ++ [e]
  if d.length > MAX_KEEP then d.drop (d.length - MAX_KEEP) else d

/-- The last `n` elements of a list. -/
def lastN {α : Type} (n : ℕ) (l : List α) : List α :=
  l.drop (l.length - n)

/-- The states the backing file of the obstruction log can be in, as the load
step of log_obstruction_fraction_5min distinguishes them (server.py lines
264-272): the file may be missing, opening or reading it may raise, the JSON
may fail to parse, or it parses to some JSON value. -/
inductive Backing where
  | missing : Backing
  | unreadableFile : Backing
  | invalidJson : Backing
  | content : PyVal → Backing

/-- The load step (server.py lines 264-272): every failure, and any parsed
content that is not a JSON array, yields the empty starting log. -/
def loadLog : Backing → List PyVal
  | Backing.missing => []
  | Backing.unreadableFile => []
  | Backing.invalidJson => []
  | Backing.content (PyVal.list l) => l
  | Backing.content _ => []

/-- Whether a parsed JSON value is an array (`isinstance(data, list)`). -/
def isJsonArray : PyVal → Bool
  | PyVal.list _ => true
  | _ => false

/-- One append of log_obstruction_fraction_5min against a backing state: load
(tolerantly), append, truncate.  The result is the list that is then written
back to the file (server.py lines 264-282). -/
def appendToBacking (b : Backing) (entry : PyVal) : List PyVal :=
  appendBounded (loadLog b) entry

/-- The observable file contents during the write step of
log_obstruction_fraction_5min (server.py lines 281-282):
`open(OBSTRUCTION_5MIN_PATH, "w")` truncates the file in place and
`json.dump` then streams the serialized text into it, so a concurrent reader
can see the old content, the truncated empty file, or any prefix of the new
content.  Contents are modelled as char lists. -/
def logWriteTrace (old serialized : List Char) : List (List Char) :=
  old :: (List.range (serialized.length + 1)).map (fun k => serialized.take k)

/-- A write trace is atomic for a reader when every observable content is the
old content or the new content. -/
def atomicSafe (trace : List (List Char)) (old new : List Char) : Prop :=
  ∀ s ∈ trace, s = old ∨ s = new

/-- `RESET_TIMES` (server.py line 16). -/
def RESET_TIMES : List String := ["00:00", "12:00"]

/-- One evaluation of the scheduled-reset block of _bg_loop (server.py lines
299-306) at a tick whose UTC wall clock renders as `hm`: if `hm` is a reset
instant not yet in `last_reset_times`, the reset operation is invoked and the
instant is recorded (the result `resetOk` of the reset is only printed, so the
recording does not depend on it); afterwards the fired-set is cleared when
`hm` is the 00:01 watch-point.  Returns whether the reset was invoked and the
new fired-set. -/
def bgResetStep (hm : String) (fired : List String) (resetOk : Bool) :
    Bool × List String :=
  let step :=
    if hm ∈ RESET_TIMES ∧ hm ∉ fired then (true, fired ++ [hm])
    else (false, fired)
  (step.1, if hm = "00:01" then [] else step.2)

/-- Run the scheduled-reset block over a sequence of ticks, counting how many
times the reset operation was invoked. -/
def runReset : List String → List String → ℕ × List String
  | [], fired => (0, fired)
  | hm :: rest, fired =>
    let s := bgResetStep hm fired true
    let r := runReset rest s.2
    ((if s.1 then 1 else 0) + r.1, r.2)

/-- `AUTO_KEEPALIVE_SEC` (server.py line 13). -/
def AUTO_KEEPALIVE_SEC : ℚ := 120

/-- The shape of the result dicts returned by do_status, do_keepalive and
do_reset_obstruction_map: an ok flag, an optional timestamp and an optional
error message. -/
structure OpResult where
  ok : Bool
  ts : Option ℤ
  error : Option String
deriving DecidableEq

/-- Embedding of `do_keepalive` (server.py lines 207-212), with the result of
the underlying do_status call and the current time passed in: on success
return ok with a timestamp, otherwise ok=false with
`r.get("error", "keepalive failed")`. -/
def do_keepalive (statusResult : OpResult) (now : ℤ) : OpResult :=
  if statusResult.ok = true then { ok := true, ts := some now, error := Option.none }
  else { ok := false, ts := Option.none,
         error := some (statusResult.error.getD "keepalive failed") }

/-- The keep-alive deadline update of _bg_loop (server.py lines 295-298): when
the branch fires, the next deadline is `now + AUTO_KEEPALIVE_SEC` whatever the
keep-alive result `kaResult` was (it is only printed); otherwise the deadline
is unchanged. -/
def kaBranch (now next_ka : ℚ) (kaResult : OpResult) : ℚ :=
  if now ≥ next_ka then now + AUTO_KEEPALIVE_SEC else next_ka

/-- An HTTP response of the Handler: the HTML index page, a JSON body (the
serialized Python value), or the 404 fallback. -/
inductive HttpResp where
  | html : HttpResp
  | json : PyVal → HttpResp
  | notFound : HttpResp

/-- The status code sent for each response shape (`self._send(200, ...)` for
the page and every JSON body, `self._send(404, ...)` otherwise). -/
def statusCode : HttpResp → ℕ
  | HttpResp.html => 200
  | HttpResp.json _ => 200
  | HttpResp.notFound => 404

/-- Whether a response carries a JSON body. -/
def isJsonBody : HttpResp → Bool
  | HttpResp.json _ => true
  | _ => false

/-- Embedding of `Handler.do_GET` (server.py lines 841-859) on an
already-parsed path, with the do_status result and clock passed in. -/
def handleGET (statusResult : PyVal) (now : ℤ) (p : String) : HttpResp :=
  if p = "/" ∨ p = "/index.html" then HttpResp.html
  else if p = "/api/health" then
    HttpResp.json (PyVal.dict [("ok", PyVal.bool true), ("ts", PyVal.num now)])
  else if p = "/api/status" then HttpResp.json statusResult
  else HttpResp.notFound

/-- Embedding of `Handler.do_POST` (server.py lines 861-876), with the results
of do_reset_obstruction_map and do_keepalive passed in. -/
def handlePOST (resetResult keepaliveResult : PyVal) (p : String) : HttpResp :=
  if p = "/api/reset" then HttpResp.json resetResult
  else if p = "/api/keepalive" then HttpResp.json keepaliveResult
  else HttpResp.notFound

theorem resolveChain_cons_truthy (d : PyVal) (p : List String)
    (rest : List (List String)) (h : pyTruthy (gpathV d p) = true) :
    resolveChain d (p :: rest) = gpathV d p := by
  cases rest with
  | nil => rfl
  | cons q rs => simp [resolveChain, h]

theorem pyOr_chain2 (d : PyVal) (p1 p2 : List String) :
    pyOr (gpathV d p1) (gpathV d p2) = resolveChain d [p1, p2] := by
  simp [pyOr, resolveChain]

theorem pyOr_chain3 (d : PyVal) (p1 p2 p3 : List String) :
    pyOr (gpathV d p1) (pyOr (gpathV d p2) (gpathV d p3)) =
      resolveChain d [p1, p2, p3] := by
  rw [pyOr_chain2]
  simp [pyOr, resolveChain]

theorem pyOr_chain4 (d : PyVal) (p1 p2 p3 p4 : List String) :
    pyOr (gpathV d p1) (pyOr (gpathV d p2) (pyOr (gpathV d p3) (gpathV d p4))) =
      resolveChain d [p1, p2, p3, p4] := by
  rw [pyOr_chain3]
  simp [pyOr, resolveChain]

/-- A payload carrying a falsy-but-present obstruction fraction of exactly 0
at the primary key, with a nonzero fallback value underneath
obstruction_stats. -/
def payloadZeroObstruction : PyVal :=
  PyVal.dict
    [("obstruction_fraction", PyVal.num 0),
     ("obstruction_stats",
       PyVal.dict [("fraction_obstructed", PyVal.num (Rat.divInt 1 2))])]

/-- C1, counterexample: on `payloadZeroObstruction` the first key-path of the
obstruction-fraction field resolves to the present value 0, yet the
normalizer and the classifier both resolve the field to the later
alternative 0.5 — the or-chains treat a present falsy value as absent, so
the first present key-path does not win as the claim states. -/
theorem claim_C1_counterexample :
    resolveFirstPresent payloadZeroObstruction obstructionFractionPaths =
      some (PyVal.num 0) ∧
    (mkSummary payloadZeroObstruction).obstruction_fraction =
      PyVal.num (Rat.divInt 1 2) ∧
    (check_alignment payloadZeroObstruction).obstruction_fraction =
      some (Rat.divInt 1 2) ∧
    PyVal.num (Rat.divInt 1 2) ≠ PyVal.num 0 := by
  refine ⟨rfl, rfl, rfl, ?_⟩
  intro h
  injection h with h2
  exact absurd h2 (by decide)

/-- A payload with a truthy obstruction fraction at the primary key. -/
def payloadSmallObstruction : PyVal :=
  PyVal.dict [("obstruction_fraction", PyVal.num (Rat.divInt 3 100))]

/-- C1 (amended): every canonical field of the summary, and every raw field
the classifier resolves, is resolved by trying its ordered list of
alternative key-paths and taking the first whose value is truthy; a present
but falsy value (0, False, the empty string) is skipped in favour of later
alternatives, and when no alternative is truthy the value of the last
alternative is kept.  Once a key-path yields a truthy value, later
alternatives are not consulted. -/
theorem claim_C1_amended (d : PyVal) :
    (mkSummary d).dish_state = resolveChain d dishStatePaths ∧
    (mkSummary d).pop_ping_latency_ms =
      resolveChain d [["pop_ping_latency_ms"], ["ping_latency_ms"]] ∧
    (mkSummary d).pop_ping_drop_rate = resolveChain d [["pop_ping_drop_rate"]] ∧
    (mkSummary d).downlink_throughput_bps =
      resolveChain d [["downlink_throughput_bps"], ["download_throughput_bps"]] ∧
    (mkSummary d).uplink_throughput_bps =
      resolveChain d [["uplink_throughput_bps"], ["upload_throughput_bps"]] ∧
    (mkSummary d).obstruction_fraction =
      resolveChain d obstructionFractionPaths ∧
    (mkSummary d).seconds_since_last_1s_outage =
      resolveChain d [["seconds_since_last_1s_outage"]] ∧
    (mkSummary d).seconds_since_last_2s_outage =
      resolveChain d [["seconds_since_last_2s_outage"]] ∧
    (mkSummary d).seconds_since_last_5s_outage =
      resolveChain d [["seconds_since_last_5s_outage"]] ∧
    (check_alignment d).dish_state = resolveChain d dishStatePaths ∧
    (check_alignment d).boresight_error_deg =
      pyFloat (resolveChain d boresightPaths) ∧
    (check_alignment d).obstruction_fraction =
      pyFloat (resolveChain d obstructionFractionPaths) ∧
    (check_alignment d).currently_obstructed =
      resolveChain d [["currently_obstructed"],
        ["obstruction_stats", "currently_obstructed"]] ∧
    (∀ (p : List String) (rest : List (List String)),
      pyTruthy (gpathV d p) = true → resolveChain d (p :: rest) = gpathV d p) := by
  refine ⟨?_, ?_, rfl, ?_, ?_, ?_, rfl, rfl, rfl, ?_, ?_, ?_, ?_, ?_⟩
  · exact pyOr_chain3 d ["dish_state"] ["state"] ["status", "dish_state"]
  · exact pyOr_chain2 d ["pop_ping_latency_ms"] ["ping_latency_ms"]
  · exact pyOr_chain2 d ["downlink_throughput_bps"] ["download_throughput_bps"]
  · exact pyOr_chain2 d ["uplink_throughput_bps"] ["upload_throughput_bps"]
  · exact pyOr_chain3 d ["obstruction_fraction"]
      ["obstruction_stats", "fraction_obstructed"]
      ["obstruction_stats", "obstruction_fraction"]
  · exact pyOr_chain3 d ["dish_state"] ["state"] ["status", "dish_state"]
  · exact congrArg pyFloat (pyOr_chain4 d ["boresight_error_deg"]
      ["alignment_stats", "boresight_error_deg"]
      ["pointing_stats", "boresight_error_deg"]
      ["pointing", "boresight_error_deg"])
  · exact congrArg pyFloat (pyOr_chain3 d ["obstruction_fraction"]
      ["obstruction_stats", "fraction_obstructed"]
      ["obstruction_stats", "obstruction_fraction"])
  · exact pyOr_chain2 d ["currently_obstructed"]
      ["obstruction_stats", "currently_obstructed"]
  · exact fun p rest h => resolveChain_cons_truthy d p rest h

/-- C1 witness: the amended resolution rule evaluated on a concrete payload
whose first obstruction alternative is truthy. -/
theorem claim_C1_witness :
    pyTruthy (gpathV payloadSmallObstruction ["obstruction_fraction"]) = true ∧
    resolveChain payloadSmallObstruction
        (["obstruction_fraction"] ::
          [["obstruction_stats", "fraction_obstructed"],
           ["obstruction_stats", "obstruction_fraction"]]) =
      gpathV payloadSmallObstruction ["obstruction_fraction"] ∧
    (mkSummary payloadSmallObstruction).obstruction_fraction =
      resolveChain payloadSmallObstruction obstructionFractionPaths :=
  ⟨by decide,
   (claim_C1_amended payloadSmallObstruction).2.2.2.2.2.2.2.2.2.2.2.2.2
     ["obstruction_fraction"]
     [["obstruction_stats", "fraction_obstructed"],
      ["obstruction_stats", "obstruction_fraction"]] (by decide),
   (claim_C1_amended payloadSmallObstruction).2.2.2.2.2.1⟩

theorem rule2_keeps_not_ok (d : PyVal) (st : ClassifierState)
    (h : st.verdict = "NOT_OK") : (rule2 d st).verdict = "NOT_OK" := by
  unfold rule2
  cases boresightVal d with
  | none => exact h
  | some v =>
    dsimp only
    split_ifs <;> simp [h]

theorem rule3_keeps_not_ok (d : PyVal) (st : ClassifierState)
    (h : st.verdict = "NOT_OK") : (rule3 d st).verdict = "NOT_OK" := by
  unfold rule3
  split_ifs <;> simp [h]

theorem rule4_keeps_not_ok (d : PyVal) (st : ClassifierState)
    (h : st.verdict = "NOT_OK") : (rule4 d st).verdict = "NOT_OK" := by
  unfold rule4
  cases obstructionVal d with
  | none => exact h
  | some v =>
    dsimp only
    split_ifs <;> simp [h]

theorem check_alignment_verdict_of_state (d : PyVal)
    (h : (rule4 d (rule3 d (rule2 d (rule1 d)))).verdict = "NOT_OK") :
    (check_alignment d).verdict = "NOT_OK" := by
  unfold check_alignment
  simp [h]

/-- C2: the rule evaluation is monotone — if any of the four rules has set
the threaded verdict to NOT_OK, the final verdict of check_alignment is
NOT_OK; no later rule restores ALIGNED or UNKNOWN. -/
theorem claim_C2 (d : PyVal)
    (h : (rule1 d).verdict = "NOT_OK" ∨
      (rule2 d (rule1 d)).verdict = "NOT_OK" ∨
      (rule3 d (rule2 d (rule1 d))).verdict = "NOT_OK" ∨
      (rule4 d (rule3 d (rule2 d (rule1 d)))).verdict = "NOT_OK") :
    (check_alignment d).verdict = "NOT_OK" := by
  apply check_alignment_verdict_of_state
  rcases h with h | h | h | h
  · exact rule4_keeps_not_ok _ _ (rule3_keeps_not_ok _ _ (rule2_keeps_not_ok _ _ h))
  · exact rule4_keeps_not_ok _ _ (rule3_keeps_not_ok _ _ h)
  · exact rule4_keeps_not_ok _ _ h
  · exact h

/-- C2 witness: a stowed dish fails rule 1 and the final verdict is NOT_OK. -/
theorem claim_C2_witness :
    (rule1 (PyVal.dict [("dish_state", PyVal.str "STOWED")])).verdict = "NOT_OK" ∧
    (check_alignment (PyVal.dict [("dish_state", PyVal.str "STOWED")])).verdict =
      "NOT_OK" :=
  ⟨by decide,
   claim_C2 (PyVal.dict [("dish_state", PyVal.str "STOWED")]) (Or.inl (by decide))⟩

theorem rule1_reasons_eq (d : PyVal) : (rule1 d).reasons = reasons1 d := by
  unfold rule1 reasons1
  dsimp only
  split_ifs <;> rfl

theorem rule2_reasons_eq (d : PyVal) (st : ClassifierState) :
    (rule2 d st).reasons = st.reasons ++ reasons2 d := by
  unfold rule2 reasons2
  cases boresightVal d with
  | none => simp
  | some v =>
    dsimp only
    split_ifs <;> simp

theorem rule3_reasons_eq (d : PyVal) (st : ClassifierState) :
    (rule3 d st).reasons = st.reasons ++ reasons3 d := by
  unfold rule3 reasons3
  split_ifs <;> simp

theorem rule4_reasons_eq (d : PyVal) (st : ClassifierState) :
    (rule4 d st).reasons = st.reasons ++ reasons4 d := by
  unfold rule4 reasons4
  cases obstructionVal d with
  | none => simp
  | some v =>
    dsimp only
    split_ifs <;> simp

theorem rule1_verdict_ne_iff (d : PyVal) :
    (rule1 d).verdict ≠ "ALIGNED" ↔ (reasons1 d).length = 1 := by
  unfold rule1 reasons1
  dsimp only
  split_ifs <;> simp

theorem rule2_id_of_nil (d : PyVal) (st : ClassifierState)
    (h : reasons2 d = []) : rule2 d st = st := by
  unfold rule2
  unfold reasons2 at h
  cases hb : boresightVal d with
  | none => rfl
  | some v =>
    rw [hb] at h
    dsimp only at h ⊢
    split_ifs at h ⊢ <;> simp_all

theorem rule3_id_of_nil (d : PyVal) (st : ClassifierState)
    (h : reasons3 d = []) : rule3 d st = st := by
  unfold rule3
  unfold reasons3 at h
  split_ifs at h ⊢ <;> simp_all

theorem rule4_id_of_nil (d : PyVal) (st : ClassifierState)
    (h : reasons4 d = []) : rule4 d st = st := by
  unfold rule4
  unfold reasons4 at h
  cases hb : obstructionVal d with
  | none => rfl
  | some v =>
    rw [hb] at h
    dsimp only at h ⊢
    split_ifs at h ⊢ <;> simp_all

theorem check_alignment_verdict_aligned (d : PyVal)
    (h : (rule4 d (rule3 d (rule2 d (rule1 d)))).verdict = "ALIGNED") :
    (check_alignment d).verdict = "ALIGNED" := by
  unfold check_alignment
  simp [h]

theorem check_alignment_reasons_decompose (d : PyVal) :
    (check_alignment d).reasons =
      reasons1 d ++ reasons2 d ++ reasons3 d ++ reasons4 d := by
  show (rule4 d (rule3 d (rule2 d (rule1 d)))).reasons = _
  rw [rule4_reasons_eq, rule3_reasons_eq, rule2_reasons_eq, rule1_reasons_eq]

/-- C3: `aligned` is true exactly when the verdict is ALIGNED; the reasons
list is nonempty whenever the verdict is not ALIGNED; and the reasons list is
exactly the concatenation, in rule-evaluation order, of the one-entry
contribution of each failed rule (and nothing from rules that passed). -/
theorem claim_C3 (d : PyVal) :
    ((check_alignment d).aligned = true ↔ (check_alignment d).verdict = "ALIGNED") ∧
    ((check_alignment d).verdict ≠ "ALIGNED" → (check_alignment d).reasons ≠ []) ∧
    (check_alignment d).reasons =
      reasons1 d ++ reasons2 d ++ reasons3 d ++ reasons4 d ∧
    ((rule1 d).verdict ≠ "ALIGNED" ↔ (reasons1 d).length = 1) ∧
    ((∃ v, boresightVal d = some v ∧ v > Rat.divInt 5 2) ↔
      (reasons2 d).length = 1) ∧
    (isPyTrue (resolveObstructed d) = true ↔ (reasons3 d).length = 1) ∧
    ((∃ v, obstructionVal d = some v ∧ v > Rat.divInt 1 50) ↔
      (reasons4 d).length = 1) := by
  refine ⟨?_, ?_, check_alignment_reasons_decompose d, rule1_verdict_ne_iff d,
    ?_, ?_, ?_⟩
  · unfold check_alignment
    dsimp only
    by_cases h : (rule4 d (rule3 d (rule2 d (rule1 d)))).verdict = "ALIGNED"
    · simp [h]
    · simp [h]
      split_ifs <;> simp
  · intro hv hr
    rw [check_alignment_reasons_decompose d] at hr
    have h1 : reasons1 d = [] := by
      rcases List.append_eq_nil.mp hr with ⟨hr3, _⟩
      rcases List.append_eq_nil.mp hr3 with ⟨hr2, _⟩
      exact (List.append_eq_nil.mp hr2).1
    have h2 : reasons2 d = [] := by
      rcases List.append_eq_nil.mp hr with ⟨hr3, _⟩
      rcases List.append_eq_nil.mp hr3 with ⟨hr2, _⟩
      exact (List.append_eq_nil.mp hr2).2
    have h3 : reasons3 d = [] := by
      rcases List.append_eq_nil.mp hr with ⟨hr3, _⟩
      exact (List.append_eq_nil.mp hr3).2
    have h4 : reasons4 d = [] := (List.append_eq_nil.mp hr).2
    have hst : (rule4 d (rule3 d (rule2 d (rule1 d)))).verdict = "ALIGNED" := by
      rw [rule4_id_of_nil d _ h4, rule3_id_of_nil d _ h3, rule2_id_of_nil d _ h2]
      by_contra hne
      have := (rule1_verdict_ne_iff d).mp hne
      rw [h1] at this
      simp at this
    exact hv (check_alignment_verdict_aligned d hst)
  · unfold reasons2
    cases hb : boresightVal d with
    | none => simp
    | some v =>
      dsimp only
      by_cases hv : v > Rat.divInt 5 2
      · rw [if_pos hv]
        exact iff_of_true ⟨v, rfl, hv⟩ rfl
      · rw [if_neg hv]
        refine iff_of_false ?_ (by simp)
        rintro ⟨v2, hv2, hgt⟩
        rw [Option.some.injEq] at hv2
        subst hv2
        exact hv hgt
  · unfold reasons3
    split_ifs with h <;> simp [h]
  · unfold reasons4
    cases hb : obstructionVal d with
    | none => simp
    | some v =>
      dsimp only
      by_cases h1 : v > Rat.divInt 1 10
      · rw [if_pos h1]
        exact iff_of_true ⟨v, rfl, lt_trans (by decide) h1⟩ rfl
      · rw [if_neg h1]
        by_cases h2 : v > Rat.divInt 1 50
        · rw [if_pos h2]
          exact iff_of_true ⟨v, rfl, h2⟩ rfl
        · rw [if_neg h2]
          refine iff_of_false ?_ (by simp)
          rintro ⟨v2, hv2, hgt⟩
          rw [Option.some.injEq] at hv2
          subst hv2
          exact h2 hgt

/-- C3 witness: the invariant instantiated on a searching dish. -/
theorem claim_C3_witness :
    (check_alignment (PyVal.dict [("dish_state", PyVal.str "SEARCHING")])).reasons ≠ [] ∧
    (check_alignment (PyVal.dict [("dish_state", PyVal.str "SEARCHING")])).reasons =
      reasons1 (PyVal.dict [("dish_state", PyVal.str "SEARCHING")]) ++
      reasons2 (PyVal.dict [("dish_state", PyVal.str "SEARCHING")]) ++
      reasons3 (PyVal.dict [("dish_state", PyVal.str "SEARCHING")]) ++
      reasons4 (PyVal.dict [("dish_state", PyVal.str "SEARCHING")]) :=
  ⟨(claim_C3 (PyVal.dict [("dish_state", PyVal.str "SEARCHING")])).2.1 (by decide),
   (claim_C3 (PyVal.dict [("dish_state", PyVal.str "SEARCHING")])).2.2.1⟩

/-- An online dish reporting only a boresight error of `q` degrees. -/
def borePayload (q : ℚ) : PyVal :=
  PyVal.dict [("dish_state", PyVal.str "ONLINE"), ("boresight_error_deg", PyVal.num q)]

/-- An online dish reporting only an obstruction fraction of `q`. -/
def obsPayload (q : ℚ) : PyVal :=
  PyVal.dict [("dish_state", PyVal.str "ONLINE"), ("obstruction_fraction", PyVal.num q)]

theorem obsPayload_val (q : ℚ) (hq : q ≠ 0) :
    obstructionVal (obsPayload q) = some q := by
  have h : resolveObstruction (obsPayload q) =
      pyOr (PyVal.num q) (pyOr PyVal.none PyVal.none) := rfl
  have ht : pyTruthy (PyVal.num q) = true := by simp [pyTruthy, hq]
  unfold obstructionVal
  rw [h]
  unfold pyOr
  rw [ht]
  simp [pyFloat]

theorem obsPayload_rule1 (q : ℚ) : rule1 (obsPayload q) = ⟨"ALIGNED", []⟩ := rfl

theorem obsPayload_rule2 (q : ℚ) (st : ClassifierState) :
    rule2 (obsPayload q) st = st := by
  have h : boresightVal (obsPayload q) = Option.none := rfl
  unfold rule2
  rw [h]

theorem obsPayload_rule3 (q : ℚ) (st : ClassifierState) :
    rule3 (obsPayload q) st = st := by
  have h : isPyTrue (resolveObstructed (obsPayload q)) = false := rfl
  unfold rule3
  rw [h]
  simp

theorem obsPayload_state (q : ℚ) (hq : q ≠ 0) :
    rule4 (obsPayload q)
        (rule3 (obsPayload q) (rule2 (obsPayload q) (rule1 (obsPayload q)))) =
      (if q > Rat.divInt 1 10 then
        ⟨"NOT_OK", ["obstruction=HIGH (" ++ fmtFixed q 3 ++ ")"]⟩
       else if q > Rat.divInt 1 50 then
        ⟨"NOT_OK", ["obstruction=MED (" ++ fmtFixed q 3 ++ ")"]⟩
       else ⟨"ALIGNED", []⟩) := by
  rw [obsPayload_rule1, obsPayload_rule2, obsPayload_rule3]
  unfold rule4
  rw [obsPayload_val q hq]
  dsimp only
  split_ifs <;> rfl

theorem check_alignment_obsPayload (q : ℚ) (hq : q ≠ 0) :
    (check_alignment (obsPayload q)).reasons =
      (if q > Rat.divInt 1 10 then ["obstruction=HIGH (" ++ fmtFixed q 3 ++ ")"]
       else if q > Rat.divInt 1 50 then ["obstruction=MED (" ++ fmtFixed q 3 ++ ")"]
       else []) ∧
    (check_alignment (obsPayload q)).verdict =
      (if q > Rat.divInt 1 50 then "NOT_OK" else "ALIGNED") := by
  constructor
  · show (rule4 (obsPayload q)
      (rule3 (obsPayload q) (rule2 (obsPayload q) (rule1 (obsPayload q))))).reasons = _
    rw [obsPayload_state q hq]
    split_ifs <;> rfl
  · unfold check_alignment
    dsimp only
    rw [obsPayload_state q hq]
    by_cases hA : q > Rat.divInt 1 10
    · rw [if_pos hA, if_pos (lt_trans (by decide) hA)]
      simp
    · rw [if_neg hA]
      by_cases hB : q > Rat.divInt 1 50
      · rw [if_pos hB, if_pos hB]
        simp
      · rw [if_neg hB, if_neg hB]
        simp

/-- C4: the classifier thresholds are strict.  A boresight error of exactly
2.5 degrees stays ALIGNED while 2.5001 gives NOT_OK; an obstruction fraction
of exactly 0.02 adds no reason, any value strictly above 0.02 and at most
0.10 adds the MED reason (and NOT_OK), exactly 0.10 adds MED rather than
HIGH, and any value strictly above 0.10 adds the HIGH reason (and NOT_OK). -/
theorem claim_C4 (q1 q2 : ℚ)
    (h1a : Rat.divInt 1 50 < q1) (h1b : q1 ≤ Rat.divInt 1 10)
    (h2 : Rat.divInt 1 10 < q2) :
    (check_alignment (borePayload (Rat.divInt 5 2))).verdict = "ALIGNED" ∧
    (check_alignment (borePayload (Rat.divInt 25001 10000))).verdict = "NOT_OK" ∧
    (check_alignment (obsPayload (Rat.divInt 1 50))).reasons = [] ∧
    (check_alignment (obsPayload (Rat.divInt 1 50))).verdict = "ALIGNED" ∧
    (check_alignment (obsPayload q1)).reasons =
      ["obstruction=MED (" ++ fmtFixed q1 3 ++ ")"] ∧
    (check_alignment (obsPayload q1)).verdict = "NOT_OK" ∧
    (check_alignment (obsPayload (Rat.divInt 1 10))).reasons =
      ["obstruction=MED (" ++ fmtFixed (Rat.divInt 1 10) 3 ++ ")"] ∧
    (check_alignment (obsPayload q2)).reasons =
      ["obstruction=HIGH (" ++ fmtFixed q2 3 ++ ")"] ∧
    (check_alignment (obsPayload q2)).verdict = "NOT_OK" := by
  have hq1 : q1 ≠ 0 := ne_of_gt (lt_trans (by decide) h1a)
  have hq2 : q2 ≠ 0 := ne_of_gt (lt_trans (by decide) h2)
  refine ⟨by decide, by decide, by decide, by decide, ?_, ?_, by decide, ?_, ?_⟩
  · rw [(check_alignment_obsPayload q1 hq1).1, if_neg (not_lt.mpr h1b), if_pos h1a]
  · rw [(check_alignment_obsPayload q1 hq1).2, if_pos h1a]
  · rw [(check_alignment_obsPayload q2 hq2).1, if_pos h2]
  · rw [(check_alignment_obsPayload q2 hq2).2, if_pos (lt_trans (by decide) h2)]

/-- C4 witness: the thresholds evaluated at 0.03 (MED) and 0.2 (HIGH). -/
theorem claim_C4_witness :
    Rat.divInt 1 50 < Rat.divInt 3 100 ∧
    (check_alignment (obsPayload (Rat.divInt 3 100))).reasons =
      ["obstruction=MED (" ++ fmtFixed (Rat.divInt 3 100) 3 ++ ")"] ∧
    (check_alignment (obsPayload (Rat.divInt 1 5))).reasons =
      ["obstruction=HIGH (" ++ fmtFixed (Rat.divInt 1 5) 3 ++ ")"] :=
  ⟨by decide,
   (claim_C4 (Rat.divInt 3 100) (Rat.divInt 1 5) (by decide) (by decide)
     (by decide)).2.2.2.2.1,
   (claim_C4 (Rat.divInt 3 100) (Rat.divInt 1 5) (by decide) (by decide)
     (by decide)).2.2.2.2.2.2.2.1⟩

theorem bgResetStep_fires (hm : String) (fired : List String) (ok : Bool)
    (hmem : hm ∈ RESET_TIMES) (hnew : hm ∉ fired) (hne : hm ≠ "00:01") :
    bgResetStep hm fired ok = (true, fired ++ [hm]) := by
  unfold bgResetStep
  rw [if_pos ⟨hmem, hnew⟩]
  dsimp only
  rw [if_neg hne]

theorem bgResetStep_skips (hm : String) (fired : List String) (ok : Bool)
    (hold : hm ∈ fired) (hne : hm ≠ "00:01") :
    bgResetStep hm fired ok = (false, fired) := by
  unfold bgResetStep
  rw [if_neg (by intro h; exact h.2 hold)]
  dsimp only
  rw [if_neg hne]

theorem runReset_no_refire (hm : String) (hne : hm ≠ "00:01") :
    ∀ (n : ℕ) (fired : List String), hm ∈ fired →
      runReset (List.replicate n hm) fired = (0, fired) := by
  intro n
  induction n with
  | zero => intro fired _; rfl
  | succ k ih =>
    intro fired hold
    show runReset (hm :: List.replicate k hm) fired = (0, fired)
    unfold runReset
    rw [bgResetStep_skips hm fired true hold hne]
    dsimp only
    rw [ih fired hold]
    simp

/-- C5: the reset instant fires at most once per day.  The recording of an
instant in the fired-set does not depend on the reset operation's outcome
(first conjunct); over any number of consecutive ticks within a configured
reset minute the reset is invoked exactly once and the instant ends up
recorded (second and third conjuncts); a tick at the 00:01 watch-point clears
the fired-set (fourth conjunct), after which the 00:00 instant fires again
(fifth conjunct). -/
theorem claim_C5 (hm : String) (n : ℕ) (fired : List String) (ok okb : Bool)
    (hmem : hm ∈ RESET_TIMES) (hnew : hm ∉ fired) :
    bgResetStep hm fired ok = bgResetStep hm fired okb ∧
    (runReset (List.replicate (n + 1) hm) fired).1 = 1 ∧
    hm ∈ (runReset (List.replicate (n + 1) hm) fired).2 ∧
    (bgResetStep "00:01" fired ok).2 = [] ∧
    (bgResetStep "00:00" [] ok).1 = true := by
  have hne : hm ≠ "00:01" := by
    have h2 : hm = "00:00" ∨ hm = "12:00" := by simpa [RESET_TIMES] using hmem
    rcases h2 with rfl | rfl <;> decide
  have hrun : runReset (List.replicate (n + 1) hm) fired = (1, fired ++ [hm]) := by
    show runReset (hm :: List.replicate n hm) fired = _
    unfold runReset
    rw [bgResetStep_fires hm fired true hmem hnew hne]
    dsimp only
    rw [runReset_no_refire hm hne n (fired ++ [hm]) (by simp)]
    simp
  refine ⟨rfl, ?_, ?_, ?_, rfl⟩
  · rw [hrun]
  · rw [hrun]; simp
  · simp [bgResetStep]

/-- C5 witness: three ticks at 00:00 starting from an empty fired-set invoke
the reset exactly once. -/
theorem claim_C5_witness :
    (runReset (List.replicate 3 "00:00") []).1 = 1 ∧
    (bgResetStep "00:01" [] true).2 = [] :=
  ⟨(claim_C5 "00:00" 2 [] true false (by decide) (by decide)).2.1,
   (claim_C5 "00:00" 2 [] true false (by decide) (by decide)).2.2.2.1⟩

theorem appendBounded_eq_lastN {α : Type} (data : List α) (e : α) :
    appendBounded data e = lastN MAX_KEEP (data ++ [e]) := by
  unfold appendBounded lastN
  dsimp only
  split_ifs with h
  · rfl
  · rw [Nat.sub_eq_zero_of_le (le_of_not_lt h), List.drop_zero]

theorem lastN_length_le {α : Type} (n : ℕ) (l : List α) : (lastN n l).length ≤ n := by
  unfold lastN
  rw [List.length_drop]
  omega

theorem lastN_of_le {α : Type} (n : ℕ) (l : List α) (h : l.length ≤ n) :
    lastN n l = l := by
  unfold lastN
  rw [Nat.sub_eq_zero_of_le h, List.drop_zero]

theorem lastN_append_right {α : Type} (n : ℕ) (l1 l2 : List α)
    (h : n ≤ l2.length) : lastN n (l1 ++ l2) = lastN n l2 := by
  unfold lastN
  rw [List.length_append]
  have heq : l1.length + l2.length - n = l1.length + (l2.length - n) := by omega
  rw [heq, List.drop_append]

theorem lastN_lastN_append {α : Type} (n : ℕ) (xs ys : List α) :
    lastN n (lastN n xs ++ ys) = lastN n (xs ++ ys) := by
  by_cases h : xs.length ≤ n
  · rw [lastN_of_le n xs h]
  · push_neg at h
    have hlen : (lastN n xs).length = n := by
      unfold lastN
      rw [List.length_drop]
      omega
    have hx : xs.take (xs.length - n) ++ lastN n xs = xs :=
      List.take_append_drop _ xs
    conv_rhs => rw [← hx, List.append_assoc]
    exact (lastN_append_right n (xs.take (xs.length - n)) (lastN n xs ++ ys)
      (by rw [List.length_append, hlen]; omega)).symm

theorem appendBounded_length_le {α : Type} (data : List α) (e : α) :
    (appendBounded data e).length ≤ MAX_KEEP := by
  rw [appendBounded_eq_lastN]
  exact lastN_length_le _ _

theorem appendBounded_getLast {α : Type} (data : List α) (e : α) :
    (appendBounded data e).getLast? = some e := by
  rw [appendBounded_eq_lastN]
  unfold lastN
  have h : (data ++ [e]).length - MAX_KEEP ≤ data.length := by
    rw [List.length_append]
    simp only [List.length_singleton, MAX_KEEP]
    omega
  rw [List.drop_append_of_le_length h]
  simp

theorem foldl_appendBounded {α : Type} (l : List α) :
    ∀ acc : List α, acc.length ≤ MAX_KEEP →
      List.foldl appendBounded acc l = lastN MAX_KEEP (acc ++ l) := by
  induction l with
  | nil =>
    intro acc h
    simp only [List.foldl_nil, List.append_nil]
    rw [lastN_of_le _ _ h]
  | cons e t ih =>
    intro acc h
    show List.foldl appendBounded (appendBounded acc e) t = _
    rw [ih (appendBounded acc e) (appendBounded_length_le acc e),
      appendBounded_eq_lastN, lastN_lastN_append]
    simp

/-- C6: one append never leaves more than 2016 entries, the appended sample
is always the last entry, and appending 2020 samples sequentially to an
empty log keeps exactly the most recent 2016 in order (the first four are
evicted from the front). -/
theorem claim_C6 {α : Type} (data : List α) (e : α) (l : List α)
    (hl : l.length = 2020) :
    (appendBounded data e).length ≤ 2016 ∧
    (appendBounded data e).getLast? = some e ∧
    List.foldl appendBounded ([] : List α) l = l.drop 4 ∧
    (List.foldl appendBounded ([] : List α) l).length = 2016 := by
  have hfold : List.foldl appendBounded ([] : List α) l = l.drop 4 := by
    rw [foldl_appendBounded l [] (by simp [MAX_KEEP])]
    unfold lastN
    simp [hl, MAX_KEEP]
  refine ⟨?_, appendBounded_getLast data e, hfold, ?_⟩
  · simpa [MAX_KEEP] using appendBounded_length_le data e
  · rw [hfold, List.length_drop, hl]

/-- C6 witness: 2020 samples appended to an empty log leave the most recent
2016. -/
theorem claim_C6_witness :
    List.foldl appendBounded ([] : List ℕ) (List.range 2020) =
      (List.range 2020).drop 4 ∧
    (List.foldl appendBounded ([] : List ℕ) (List.range 2020)).length = 2016 :=
  ⟨(claim_C6 [] 0 (List.range 2020) (by simp)).2.2.1,
   (claim_C6 [] 0 (List.range 2020) (by simp)).2.2.2⟩

/-- C7: appending against a missing, unreadable, unparsable or non-array
backing file treats the log as empty and yields exactly the newly appended
sample. -/
theorem claim_C7 (e j : PyVal) (hj : isJsonArray j = false) :
    appendToBacking Backing.missing e = [e] ∧
    appendToBacking Backing.unreadableFile e = [e] ∧
    appendToBacking Backing.invalidJson e = [e] ∧
    appendToBacking (Backing.content j) e = [e] := by
  have hload : loadLog (Backing.content j) = [] := by
    cases j <;> simp_all [loadLog, isJsonArray]
  refine ⟨rfl, rfl, rfl, ?_⟩
  unfold appendToBacking
  rw [hload]
  rfl

/-- C7 witness: appending to a backing file holding the JSON number 3. -/
theorem claim_C7_witness :
    isJsonArray (PyVal.num 3) = false ∧
    appendToBacking Backing.missing PyVal.none = [PyVal.none] ∧
    appendToBacking (Backing.content (PyVal.num 3)) PyVal.none = [PyVal.none] :=
  ⟨rfl, (claim_C7 PyVal.none (PyVal.num 3) rfl).1,
   (claim_C7 PyVal.none (PyVal.num 3) rfl).2.2.2⟩

/-- C8: when the underlying status fetch failed, do_keepalive returns ok=false
with the underlying message (or "keepalive failed" when none is present), and
the scheduler's keep-alive branch sets the next deadline to now plus the fixed
120-second cadence independently of the keep-alive result — never to an
earlier retry time. -/
theorem claim_C8 (r : OpResult) (now : ℤ) (t nka : ℚ) (res res2 : OpResult)
    (hfail : r.ok = false) (hdue : t ≥ nka) :
    do_keepalive r now =
      { ok := false, ts := Option.none,
        error := some (r.error.getD "keepalive failed") } ∧
    kaBranch t nka res = kaBranch t nka res2 ∧
    kaBranch t nka res = t + AUTO_KEEPALIVE_SEC ∧
    t < kaBranch t nka res := by
  have hcad : kaBranch t nka res = t + AUTO_KEEPALIVE_SEC := by
    unfold kaBranch
    rw [if_pos hdue]
  refine ⟨?_, rfl, hcad, ?_⟩
  · unfold do_keepalive
    rw [hfail]
    simp
  · rw [hcad]
    have hpos : (0:ℚ) < AUTO_KEEPALIVE_SEC := by norm_num [AUTO_KEEPALIVE_SEC]
    linarith

/-- C8 witness: a failed status fetch with no message yields the default
keep-alive error, and a due keep-alive reschedules by the fixed cadence. -/
theorem claim_C8_witness :
    do_keepalive ⟨false, Option.none, Option.none⟩ 0 =
      ⟨false, Option.none, some "keepalive failed"⟩ ∧
    kaBranch 0 0 ⟨false, Option.none, Option.none⟩ = 0 + AUTO_KEEPALIVE_SEC :=
  ⟨(claim_C8 ⟨false, Option.none, Option.none⟩ 0 0 0
      ⟨false, Option.none, Option.none⟩ ⟨false, Option.none, Option.none⟩
      rfl (le_refl 0)).1,
   (claim_C8 ⟨false, Option.none, Option.none⟩ 0 0 0
      ⟨false, Option.none, Option.none⟩ ⟨false, Option.none, Option.none⟩
      rfl (le_refl 0)).2.2.1⟩

/-- C9, counterexample: the write step of the log store is not atomic for a
reader — writing "[0]" over a file holding "[]" exposes the truncated empty
file, which is neither the old nor the new content. -/
theorem claim_C9_counterexample :
    ¬ atomicSafe (logWriteTrace ("[]".toList) ("[0]".toList))
      ("[]".toList) ("[0]".toList) := by
  intro h
  have hmem : ([] : List Char) ∈ logWriteTrace ("[]".toList) ("[0]".toList) := by
    decide
  rcases h [] hmem with h1 | h1 <;> exact absurd h1 (by decide)

/-- C9 (amended): the append writes the serialized log directly into the
target file — open-for-write truncates in place and the content is then
streamed — so the observable intermediate contents are exactly the old
content and every prefix of the new content; in particular the empty
truncated file is observable, and no temporary-file-plus-rename mechanism is
involved. -/
theorem claim_C9_amended (old serialized : List Char) :
    ([] : List Char) ∈ logWriteTrace old serialized ∧
    serialized ∈ logWriteTrace old serialized ∧
    ∀ s ∈ logWriteTrace old serialized,
      s = old ∨ ∃ k, k ≤ serialized.length ∧ s = serialized.take k := by
  refine ⟨?_, ?_, ?_⟩
  · simp only [logWriteTrace, List.mem_cons, List.mem_map, List.mem_range]
    right
    exact ⟨0, by omega, by simp⟩
  · simp only [logWriteTrace, List.mem_cons, List.mem_map, List.mem_range]
    right
    exact ⟨serialized.length, by omega, by simp⟩
  · intro s hs
    simp only [logWriteTrace, List.mem_cons, List.mem_map, List.mem_range] at hs
    rcases hs with rfl | ⟨k, hk, rfl⟩
    · exact Or.inl rfl
    · exact Or.inr ⟨k, by omega, rfl⟩

/-- C9 witness: the amended description evaluated on the concrete write of
"[0]" over "[]". -/
theorem claim_C9_witness :
    ([] : List Char) ∈ logWriteTrace ("[]".toList) ("[0]".toList) ∧
    "[0]".toList ∈ logWriteTrace ("[]".toList) ("[0]".toList) ∧
    (("[]".toList : List Char) = "[]".toList ∨
      ∃ k, k ≤ "[0]".toList.length ∧ "[]".toList = "[0]".toList.take k) :=
  ⟨(claim_C9_amended ("[]".toList) ("[0]".toList)).1,
   (claim_C9_amended ("[]".toList) ("[0]".toList)).2.1,
   (claim_C9_amended ("[]".toList) ("[0]".toList)).2.2 ("[]".toList)
     (by decide)⟩

theorem handleGET_notFound_iff (sr : PyVal) (now : ℤ) (p : String) :
    statusCode (handleGET sr now p) = 404 ↔
      ¬(p = "/" ∨ p = "/index.html" ∨ p = "/api/health" ∨ p = "/api/status") := by
  unfold handleGET
  split_ifs with h1 h2 h3 <;> simp [statusCode] <;> tauto

theorem handlePOST_notFound_iff (rr kr : PyVal) (p : String) :
    statusCode (handlePOST rr kr p) = 404 ↔
      ¬(p = "/api/reset" ∨ p = "/api/keepalive") := by
  unfold handlePOST
  split_ifs with h1 h2 <;> simp [statusCode] <;> tauto

/-- C10: every recognized API path, with the method it supports, is answered
200 with the JSON body of the operation result — even a failure-reporting
body — and a 404 is returned exactly for unrecognized path/method
combinations. -/
theorem claim_C10 (sr rr kr : PyVal) (now : ℤ) (p : String) :
    handleGET sr now "/api/health" =
      HttpResp.json (PyVal.dict [("ok", PyVal.bool true), ("ts", PyVal.num now)]) ∧
    handleGET sr now "/api/status" = HttpResp.json sr ∧
    handlePOST rr kr "/api/reset" = HttpResp.json rr ∧
    handlePOST rr kr "/api/keepalive" = HttpResp.json kr ∧
    statusCode (handleGET sr now "/api/health") = 200 ∧
    statusCode (handleGET sr now "/api/status") = 200 ∧
    statusCode (handlePOST rr kr "/api/reset") = 200 ∧
    statusCode (handlePOST rr kr "/api/keepalive") = 200 ∧
    isJsonBody (handleGET sr now "/api/status") = true ∧
    (statusCode (handleGET sr now p) = 404 ↔
      p ∉ (["/", "/index.html", "/api/health", "/api/status"] : List String)) ∧
    (statusCode (handlePOST rr kr p) = 404 ↔
      p ∉ (["/api/reset", "/api/keepalive"] : List String)) := by
  refine ⟨rfl, rfl, rfl, rfl, rfl, rfl, rfl, rfl, rfl, ?_, ?_⟩
  · rw [handleGET_notFound_iff]
    simp
  · rw [handlePOST_notFound_iff]
    simp

/-- C10 witness: an unrecognized GET path and a method mismatch both give
404, while a status fetch body is passed through with 200. -/
theorem claim_C10_witness :
    statusCode (handleGET PyVal.none 0 "/api/nope") = 404 ∧
    statusCode (handlePOST PyVal.none PyVal.none "/api/health") = 404 ∧
    handleGET PyVal.none 0 "/api/status" = HttpResp.json PyVal.none :=
  ⟨(claim_C10 PyVal.none PyVal.none PyVal.none 0 "/api/nope").2.2.2.2.2.2.2.2.2.1.mpr
     (by decide),
   (claim_C10 PyVal.none PyVal.none PyVal.none 0 "/api/health").2.2.2.2.2.2.2.2.2.2.mpr
     (by decide),
   (claim_C10 PyVal.none PyVal.none PyVal.none 0 "/api/nope").2.1⟩
